import Mathlib

/-!
Verification of the foundry cheatcode utilities
(`crates/evm/src/executor/inspector/cheatcodes/util.rs`).

We shallowly embed the data model and the five functions the claims are
about: `configure_tx_env`, `with_journaled_account`, `process_create`,
`parse_private_key` and `check_if_fixed_gas_limit`.  Addresses, hashes and
256-bit words are modelled as `Nat`; byte strings as `List Nat`;
the journal state as an association list from address to account; fallible
operations return `Except DatabaseError`; a Rust panic
(`unwrap` / `expect`) is modelled as the `none` case of an `Option` result.
-/

namespace FoundryUtil

/-- Addresses are 20-byte identifiers, modelled as natural numbers. -/
abbrev Addr := Nat

/-- Byte strings, each entry a byte value. -/
abbrev Bytes := List Nat

/-- Big-endian rendering of `v` into exactly `width` bytes (most significant
first), as `U256::to_big_endian` produces for `width = 32`. -/
def toBEBytes : Nat → Nat → Bytes
  | 0, _ => []
  | w + 1, v => toBEBytes w (v / 256) ++ [v % 256]

/-- Value of a big-endian byte string. -/
def fromBEBytes (l : Bytes) : Nat :=
  l.foldl (fun acc b => acc * 256 + b) 0

/-- The errors of the backend database, as used by the cheatcode utilities.
`MissingCreate2Deployer` is the named deployer-misconfiguration error;
every other backend failure is collapsed into `Other`. -/
inductive DatabaseError where
  | MissingCreate2Deployer
  | Other (msg : String)
deriving DecidableEq, Repr

/-- `revm::primitives::AccountInfo`: nonce, code hash and optional code blob
(balance is irrelevant to the claims and omitted). -/
structure AccountInfo where
  nonce : Nat
  codeHash : Nat
  code : Option Bytes
deriving DecidableEq, Repr

/-- A journaled `revm::primitives::Account`: the info plus the touched flag. -/
structure Account where
  info : AccountInfo
  touched : Bool
deriving DecidableEq, Repr

/-- The account an absent address materialises as when loaded
(`Account::new_not_existing()`): zero nonce, empty-code hash, empty code. -/
def emptyAccountInfo : AccountInfo :=
  { nonce := 0, codeHash := 0, code := some [] }

/-- The `Database` backend: `basic` returns the optional account info for an
address, `code_by_hash` returns the code blob for a code hash; both fallible. -/
structure Backend where
  basic : Addr → Except DatabaseError (Option AccountInfo)
  code_by_hash : Nat → Except DatabaseError Bytes

/-- Lookup in an association list keyed by address. -/
def stLookup : List (Addr × Account) → Addr → Option Account
  | [], _ => none
  | (k, v) :: t, a => if k = a then some v else stLookup t a

/-- Insert-or-replace in an association list keyed by address. -/
def stUpdate : List (Addr × Account) → Addr → Account → List (Addr × Account)
  | [], a, acc => [(a, acc)]
  | (k, v) :: t, a, acc =>
      if k = a then (a, acc) :: t else (k, v) :: stUpdate t a acc

/-- `revm::JournaledState`, restricted to its `state` map. -/
structure JournaledState where
  state : List (Addr × Account)
deriving DecidableEq, Repr

namespace JournaledState

/-- `JournaledState::load_account`: if `addr` is already in the state map the
journal is unchanged; otherwise the account info is fetched from the backend
(an absent account materialises as `emptyAccountInfo`) and inserted.
Backend failures propagate. -/
def load_account (js : JournaledState) (db : Backend) (addr : Addr) :
    Except DatabaseError JournaledState :=
  match stLookup js.state addr with
  | some _ => .ok js
  | none =>
      match db.basic addr with
      | .error e => .error e
      | .ok info? =>
          .ok ⟨stUpdate js.state addr
            { info := info?.getD emptyAccountInfo, touched := false }⟩

/-- `JournaledState::touch`: set the touched flag of a loaded account;
a no-op on an address absent from the state map. -/
def touch (js : JournaledState) (addr : Addr) : JournaledState :=
  match stLookup js.state addr with
  | none => js
  | some acc => ⟨stUpdate js.state addr { acc with touched := true }⟩

end JournaledState

/-- Address of the default CREATE2 deployer
`0x4e59b44847b379578588920ca78fbf26c0b4956c`. -/
def DEFAULT_CREATE2_DEPLOYER : Addr :=
  0x4e59b44847b379578588920ca78fbf26c0b4956c

/-- `revm::primitives::CreateScheme`: direct creation or salted (CREATE2)
creation carrying a 256-bit salt. -/
inductive CreateScheme where
  | Create
  | Create2 (salt : Nat)
deriving DecidableEq, Repr

/-- The fields of `revm::interpreter::CreateInputs` the resolver touches. -/
structure CreateInputs where
  caller : Addr
  scheme : CreateScheme
deriving DecidableEq, Repr

/-- `ethers NameOrAddress`: the destination override type. -/
inductive NameOrAddress where
  | Name (s : String)
  | Address (a : Addr)
deriving DecidableEq, Repr

/-- The sanity check on the freshly loaded deployer proxy account
(lines 107–122 of the source): inspect the in-journal code field; when it is
present but empty, fail with `MissingCreate2Deployer`; when it is absent,
fall back to the backend `code_by_hash` lookup (propagating its failure) and
fail with `MissingCreate2Deployer` when that code is empty. -/
def create2_deployer_check (dep : Account) (db : Backend) :
    Except DatabaseError Unit :=
  match dep.info.code with
  | some code =>
      if code.isEmpty then .error .MissingCreate2Deployer else .ok ()
  | none =>
      match db.code_by_hash dep.info.codeHash with
      | .error e => .error e
      | .ok code =>
          if code.isEmpty then .error .MissingCreate2Deployer else .ok ()

/-- `process_create`.  Direct branch: rewrite the caller to the broadcast
sender and return the sender's current nonce (the journal lookup panics when
the sender is not loaded — modelled as `none`).  Salted branch: load the
deployer proxy and run `create2_deployer_check` on it; rewrite the caller to
the proxy; read and increment the sender's nonce (`unwrap`, modelled as
`none` when absent; the nonce is a `u64`, so the `+= 1` wraps modulo
`2 ^ 64`); return `salt (32 bytes BE) ++ bytecode` with the proxy as
destination override and the pre-increment nonce.  A `some (js, call, r)`
result carries the final journal, the final create inputs and the returned
`Except DatabaseError` value. -/
def process_create (broadcast_sender : Addr) (bytecode : Bytes)
    (js : JournaledState) (db : Backend) (call : CreateInputs) :
    Option (JournaledState × CreateInputs ×
      Except DatabaseError (Bytes × Option NameOrAddress × Nat)) :=
  match call.scheme with
  | .Create =>
      match stLookup js.state broadcast_sender with
      | none => none
      | some acc =>
          some (js, { call with caller := broadcast_sender },
            .ok (bytecode, none, acc.info.nonce))
  | .Create2 salt =>
      match js.load_account db DEFAULT_CREATE2_DEPLOYER with
      | .error e => some (js, call, .error e)
      | .ok js1 =>
          match stLookup js1.state DEFAULT_CREATE2_DEPLOYER with
          | none => none
          | some dep =>
              match create2_deployer_check dep db with
              | .error e => some (js1, call, .error e)
              | .ok _ =>
                  match stLookup js1.state broadcast_sender with
                  | none => none
                  | some acc =>
                      some (⟨stUpdate js1.state broadcast_sender
                          { acc with info :=
                            { acc.info with
                              nonce := (acc.info.nonce + 1) % 2 ^ 64 } }⟩,
                        { call with caller := DEFAULT_CREATE2_DEPLOYER },
                        .ok (toBEBytes 32 salt ++ bytecode,
                          some (.Address DEFAULT_CREATE2_DEPLOYER),
                          acc.info.nonce))

/-- `with_journaled_account`: ensure the account is loaded (propagating any
backend failure with the journal untouched), mark it touched, then apply the
mutator `f` (modelled as `Account → Account × R`) to the account record.  The
`expect` on the state lookup is modelled as the `none` result. -/
def with_journaled_account {R : Type} (js : JournaledState) (db : Backend)
    (addr : Addr) (f : Account → Account × R) :
    Option (JournaledState × Except DatabaseError R) :=
  match js.load_account db addr with
  | .error e => some (js, .error e)
  | .ok js1 =>
      let js2 := js1.touch addr
      match stLookup js2.state addr with
      | none => none
      | some acc =>
          let res := f acc
          some (⟨stUpdate js2.state addr res.1⟩, .ok res.2)

/-- The order of the secp256k1 group,
`0xFFFFFFFFFFFFFFFFFFFFFFFFFFFFFFFEBAAEDCE6AF48A03BBFD25E8CD0364141`. -/
def secp256k1Order : Nat :=
  0xFFFFFFFFFFFFFFFFFFFFFFFFFFFFFFFEBAAEDCE6AF48A03BBFD25E8CD0364141

/-- The external k256 `SigningKey::from_bytes` primitive: constructs a signing
key from a 32-byte big-endian scalar, failing when the scalar is zero or not
below the group order.  (External library behaviour, per its documentation.) -/
def signingKeyFromBytes (k : Nat) : Except String Nat :=
  if 0 < k ∧ k < secp256k1Order then .ok k else .error "malformed key bytes"

/-- `parse_private_key`: reject zero, reject candidates not strictly below the
secp256k1 order, then hand the 32-byte big-endian bytes to the signing-key
constructor. -/
def parse_private_key (private_key : Nat) : Except String Nat :=
  if private_key = 0 then .error "Private key cannot be 0."
  else if ¬ private_key < secp256k1Order then
    .error "Private key must be less than the secp256k1 curve order"
  else signingKeyFromBytes private_key

/-- `revm::primitives::TransactTo`: call a target address, or create. -/
inductive TransactTo where
  | Call (a : Addr)
  | Create
deriving DecidableEq, Repr

/-- The transaction-level fields of `revm::primitives::Env` that
`configure_tx_env` writes, plus those `check_if_fixed_gas_limit` reads. -/
structure TxEnv where
  caller : Addr
  gas_limit : Nat
  gas_price : Nat
  gas_priority_fee : Option Nat
  nonce : Option Nat
  access_list : List (Addr × List Nat)
  value : Nat
  data : Bytes
  transact_to : TransactTo
deriving DecidableEq, Repr

/-- The block-level fields of `revm::primitives::Env` used by the claims. -/
structure BlockEnv where
  gas_limit : Nat
deriving DecidableEq, Repr

/-- `revm::primitives::Env`, restricted to the fields the claims touch. -/
structure Env where
  tx : TxEnv
  block : BlockEnv
deriving DecidableEq, Repr

/-- An observed `ethers` `Transaction` record, fields as in the source. -/
structure Transaction where
  from_addr : Addr
  gas : Nat
  gas_price : Option Nat
  max_priority_fee_per_gas : Option Nat
  nonce : Nat
  access_list : Option (List (Addr × List Nat))
  value : Nat
  input : Bytes
  to_addr : Option Addr
deriving DecidableEq, Repr

/-- `configure_tx_env`: project the observed transaction into the execution
environment in place; the destination becomes a call when the transaction has
a target and a creation otherwise.  The transaction's `gas` and `nonce` are
256-bit values narrowed with `as_u64`, which panics (modelled as `none`) when
the value does not fit in 64 bits; the gas narrowing (line 47) happens before
the nonce narrowing (line 50). -/
def configure_tx_env (env : Env) (tx : Transaction) : Option Env :=
  if tx.gas < 2 ^ 64 then
    if tx.nonce < 2 ^ 64 then
      some { env with tx :=
        { caller := tx.from_addr
          gas_limit := tx.gas
          gas_price := tx.gas_price.getD 0
          gas_priority_fee := tx.max_priority_fee_per_gas
          nonce := some tx.nonce
          access_list := tx.access_list.getD []
          value := tx.value
          data := tx.input
          transact_to :=
            match tx.to_addr with
            | some a => TransactTo.Call a
            | none => TransactTo.Create } }
    else none
  else none

/-- `check_if_fixed_gas_limit`: the transaction gas limit exceeds the block
gas limit, the call gas limit is at most the block gas limit, and the call
gas limit exceeds 2300. -/
def check_if_fixed_gas_limit (env : Env) (call_gas_limit : Nat) : Bool :=
  decide (env.tx.gas_limit > env.block.gas_limit) &&
    decide (call_gas_limit ≤ env.block.gas_limit) &&
    decide (call_gas_limit > 2300)

/-! ### Concrete states used to exercise the theorems -/

/-- A backend whose `code_by_hash` reports the non-empty code `[1]`. -/
def exDb : Backend :=
  { basic := fun _ => .ok none, code_by_hash := fun _ => .ok [1] }

/-- A deployer-proxy account whose in-journal code field is present but empty. -/
def exEmptyCodeDep : Account :=
  { info := { nonce := 0, codeHash := 77, code := some [] }, touched := false }

/-- A journal holding only the deployer proxy, with empty in-journal code. -/
def exJsEmptyDep : JournaledState :=
  ⟨[(DEFAULT_CREATE2_DEPLOYER, exEmptyCodeDep)]⟩

/-- A deployer-proxy account with non-empty in-journal code. -/
def exGoodDep : Account :=
  { info := { nonce := 0, codeHash := 88, code := some [96] }, touched := false }

/-- A broadcast-sender account with nonce 7. -/
def exSender : Account :=
  { info := { nonce := 7, codeHash := 0, code := none }, touched := false }

/-- A journal holding a healthy deployer proxy and the sender at address 5. -/
def exJsGood : JournaledState :=
  ⟨[(DEFAULT_CREATE2_DEPLOYER, exGoodDep), (5, exSender)]⟩

/-- The journal `exJsGood` after the sender's nonce is bumped to 8. -/
def exJsGood2 : JournaledState :=
  ⟨stUpdate exJsGood.state 5
    { exSender with info := { exSender.info with nonce := 8 } }⟩

/-- A broadcast-sender account whose nonce sits at the `u64` maximum. -/
def exSenderMax : Account :=
  { info := { nonce := 2 ^ 64 - 1, codeHash := 0, code := none },
    touched := false }

/-- A journal holding a healthy deployer proxy and the maximal-nonce sender
at address 6. -/
def exJsMax : JournaledState :=
  ⟨[(DEFAULT_CREATE2_DEPLOYER, exGoodDep), (6, exSenderMax)]⟩

/-- A minimal execution environment record to project transactions into. -/
def exEnv : Env :=
  { tx :=
      { caller := 0, gas_limit := 0, gas_price := 0,
        gas_priority_fee := none, nonce := none, access_list := [],
        value := 0, data := [], transact_to := .Create }
    block := { gas_limit := 0 } }

/-- A well-formed observed transaction (gas and nonce fit in 64 bits). -/
def exTx : Transaction :=
  { from_addr := 3, gas := 21000, gas_price := some 1,
    max_priority_fee_per_gas := none, nonce := 2, access_list := none,
    value := 0, input := [7], to_addr := some 9 }

/-- An observed transaction whose 256-bit `gas` field does not fit in 64
bits, so the `as_u64` narrowing panics. -/
def exTxBigGas : Transaction :=
  { from_addr := 3, gas := 2 ^ 64, gas_price := none,
    max_priority_fee_per_gas := none, nonce := 0, access_list := none,
    value := 0, input := [], to_addr := some 9 }

/-- A backend that knows the deployer proxy (non-empty code, nonce 4) and
nothing else. -/
def exDbWithDep : Backend :=
  { basic := fun a =>
      if a = DEFAULT_CREATE2_DEPLOYER then
        .ok (some { nonce := 4, codeHash := 88, code := some [96] })
      else .ok none
    code_by_hash := fun _ => .ok [] }

/-! ### Helper lemmas about the association-list state map -/

theorem stLookup_stUpdate_self (l : List (Addr × Account)) (a : Addr)
    (acc : Account) : stLookup (stUpdate l a acc) a = some acc := by
  induction l with
  | nil => simp [stUpdate, stLookup]
  | cons hd t ih =>
      obtain ⟨k, v⟩ := hd
      by_cases hk : k = a
      · simp [stUpdate, hk, stLookup]
      · simp [stUpdate, hk, stLookup, ih]

theorem stLookup_stUpdate_ne (l : List (Addr × Account)) (a b : Addr)
    (acc : Account) (hne : b ≠ a) :
    stLookup (stUpdate l a acc) b = stLookup l b := by
  induction l with
  | nil => simp [stUpdate, stLookup, Ne.symm hne]
  | cons hd t ih =>
      obtain ⟨k, v⟩ := hd
      by_cases hk : k = a
      · subst hk
        simp [stUpdate, stLookup, Ne.symm hne]
      · simp [stUpdate, hk, stLookup, ih]

theorem JournaledState.load_account_lookup_self (js js1 : JournaledState)
    (db : Backend) (a : Addr)
    (h : js.load_account db a = .ok js1) :
    ∃ acc, stLookup js1.state a = some acc := by
  unfold JournaledState.load_account at h
  cases hl : stLookup js.state a with
  | some acc =>
      rw [hl] at h
      exact ⟨acc, by cases h; exact hl⟩
  | none =>
      rw [hl] at h
      cases hb : db.basic a with
      | error e => rw [hb] at h; cases h
      | ok info? =>
          rw [hb] at h
          cases h
          exact ⟨_, stLookup_stUpdate_self _ _ _⟩

theorem JournaledState.load_account_preserve (js js1 : JournaledState)
    (db : Backend) (a b : Addr) (acc : Account)
    (hb : stLookup js.state b = some acc)
    (h : js.load_account db a = .ok js1) :
    stLookup js1.state b = some acc := by
  unfold JournaledState.load_account at h
  cases hl : stLookup js.state a with
  | some acc0 => rw [hl] at h; cases h; exact hb
  | none =>
      rw [hl] at h
      cases hdb : db.basic a with
      | error e => rw [hdb] at h; cases h
      | ok info? =>
          rw [hdb] at h
          cases h
          have hne : b ≠ a := by
            intro heq; rw [heq, hl] at hb; cases hb
          rw [stLookup_stUpdate_ne _ _ _ _ hne]
          exact hb

theorem JournaledState.load_account_lookup_ne (js js1 : JournaledState)
    (db : Backend) (a b : Addr) (hne : b ≠ a)
    (h : js.load_account db a = .ok js1) :
    stLookup js1.state b = stLookup js.state b := by
  unfold JournaledState.load_account at h
  cases hl : stLookup js.state a with
  | some acc0 => rw [hl] at h; cases h; rfl
  | none =>
      rw [hl] at h
      cases hdb : db.basic a with
      | error e => rw [hdb] at h; cases h
      | ok info? =>
          rw [hdb] at h
          cases h
          exact stLookup_stUpdate_ne _ _ _ _ hne

theorem JournaledState.touch_lookup_self (js : JournaledState) (a : Addr)
    (acc : Account) (h : stLookup js.state a = some acc) :
    stLookup (js.touch a).state a = some { acc with touched := true } := by
  unfold JournaledState.touch
  rw [h]
  exact stLookup_stUpdate_self _ _ _

/-! ### Helper lemmas about big-endian byte encoding -/

theorem toBEBytes_length (w v : Nat) : (toBEBytes w v).length = w := by
  induction w generalizing v with
  | zero => rfl
  | succ w ih => simp [toBEBytes, ih]

theorem fromBEBytes_append (l : Bytes) (b : Nat) :
    fromBEBytes (l ++ [b]) = fromBEBytes l * 256 + b := by
  simp [fromBEBytes, List.foldl_append]

theorem fromBEBytes_toBEBytes (w v : Nat) (h : v < 256 ^ w) :
    fromBEBytes (toBEBytes w v) = v := by
  induction w generalizing v with
  | zero =>
      interval_cases v
      rfl
  | succ w ih =>
      have hdiv : v / 256 < 256 ^ w := by
        have hv : v < 256 * 256 ^ w := by
          calc v < 256 ^ (w + 1) := h
          _ = 256 * 256 ^ w := by ring
        exact Nat.div_lt_of_lt_mul hv
      rw [toBEBytes, fromBEBytes_append, ih _ hdiv]
      omega

end FoundryUtil

namespace FoundryUtil

/-! ### The claims -/

/-- C6: `parse_private_key` succeeds exactly on candidates `k` with
`1 ≤ k < secp256k1Order`; in particular it fails on `0` and on the order
itself, and succeeds on `1` and on `order - 1`. -/
theorem c6_parse_private_key_iff (k : Nat) (hk : k < 2 ^ 256) :
    (∃ sk, parse_private_key k = .ok sk) ↔ 1 ≤ k ∧ k < secp256k1Order := by
  unfold parse_private_key signingKeyFromBytes
  split_ifs with h0 h1 h2
  all_goals simp_all
  all_goals omega

/-- Witness for C6: the theorem applied at `secp256k1Order - 1` (and, by its
converse direction, the failure at `secp256k1Order` itself). -/
theorem c6_parse_private_key_iff_witness :
    ∃ sk, parse_private_key (secp256k1Order - 1) = .ok sk :=
  (c6_parse_private_key_iff (secp256k1Order - 1) (by decide)).mpr (by decide)

/-- C9: `check_if_fixed_gas_limit` is true exactly when the environment
transaction gas limit exceeds the block gas limit, the call gas limit is at
most the block gas limit, and the call gas limit exceeds 2300; in particular,
with `T > B`, it is false at `g = 2300` and at `g > B`. -/
theorem c9_check_if_fixed_gas_limit_iff (env : Env) (g : Nat) :
    check_if_fixed_gas_limit env g = true ↔
      env.block.gas_limit < env.tx.gas_limit ∧
        g ≤ env.block.gas_limit ∧ 2300 < g := by
  simp [check_if_fixed_gas_limit, and_assoc]

/-- C10 (amended): for every transaction whose `gas` and `nonce` fit in 64
bits, `configure_tx_env` succeeds and sets the environment destination to a
call to the transaction's target when present and to a creation when absent.
(For a `gas` or `nonce` of `2 ^ 64` or more the `as_u64` narrowing panics
before the destination is ever assigned, so the projection is not total;
see the counterexample.) -/
theorem c10_configure_tx_env_transact_to (env : Env) (tx : Transaction)
    (hgas : tx.gas < 2 ^ 64) (hnonce : tx.nonce < 2 ^ 64) :
    ∃ env2, configure_tx_env env tx = some env2 ∧
      env2.tx.transact_to =
        (match tx.to_addr with
         | some a => TransactTo.Call a
         | none => TransactTo.Create) := by
  unfold configure_tx_env
  rw [if_pos hgas, if_pos hnonce]
  exact ⟨_, rfl, rfl⟩

/-- Witness for C10 (amended): the well-formed transaction `exTx` projects to
a call to its target, address 9. -/
theorem c10_configure_tx_env_transact_to_witness :
    ∃ env2, configure_tx_env exEnv exTx = some env2 ∧
      env2.tx.transact_to =
        (match exTx.to_addr with
         | some a => TransactTo.Call a
         | none => TransactTo.Create) :=
  c10_configure_tx_env_transact_to exEnv exTx (by decide) (by decide)

/-- Counterexample to C10 as stated: a transaction whose `gas` field is
`2 ^ 64` makes the projection panic at the `as_u64` narrowing — it does not
set any destination, so the projection can fail. -/
theorem c10_counterexample :
    configure_tx_env exEnv exTxBigGas = none := by
  unfold configure_tx_env
  rw [if_neg (by decide : ¬ exTxBigGas.gas < 2 ^ 64)]

/-- Inversion of a successful Salted resolution: the deployer load succeeded,
the sender was present in the loaded journal, and the outputs are exactly the
bumped journal, the proxy-caller inputs, the `salt ++ init-code` payload, the
proxy destination override and the pre-increment nonce. -/
theorem process_create_create2_ok_inv
    (bs : Addr) (bytecode : Bytes) (js : JournaledState) (db : Backend)
    (call : CreateInputs) (salt : Nat) (js2 : JournaledState)
    (call2 : CreateInputs) (p : Bytes) (d : Option NameOrAddress) (n : Nat)
    (hscheme : call.scheme = .Create2 salt)
    (hrun : process_create bs bytecode js db call =
      some (js2, call2, .ok (p, d, n))) :
    ∃ js1 acc, js.load_account db DEFAULT_CREATE2_DEPLOYER = .ok js1 ∧
      stLookup js1.state bs = some acc ∧
      n = acc.info.nonce ∧
      js2 = ⟨stUpdate js1.state bs
        { acc with info :=
          { acc.info with nonce := (acc.info.nonce + 1) % 2 ^ 64 } }⟩ ∧
      call2 = { call with caller := DEFAULT_CREATE2_DEPLOYER } ∧
      p = toBEBytes 32 salt ++ bytecode ∧
      d = some (.Address DEFAULT_CREATE2_DEPLOYER) := by
  unfold process_create at hrun
  simp only [hscheme] at hrun
  cases hload : js.load_account db DEFAULT_CREATE2_DEPLOYER with
  | error e => simp only [hload] at hrun; simp at hrun
  | ok js1 =>
      simp only [hload] at hrun
      cases hdep : stLookup js1.state DEFAULT_CREATE2_DEPLOYER with
      | none => simp only [hdep] at hrun; simp at hrun
      | some dep =>
          simp only [hdep] at hrun
          cases hchk : create2_deployer_check dep db with
          | error e => simp only [hchk] at hrun; simp at hrun
          | ok u =>
              simp only [hchk] at hrun
              cases hacc : stLookup js1.state bs with
              | none => simp only [hacc] at hrun; simp at hrun
              | some acc =>
                  simp only [hacc] at hrun
                  simp only [Option.some.injEq, Prod.mk.injEq,
                    Except.ok.injEq] at hrun
                  obtain ⟨hjs2, hcall2, hp, hd, hn⟩ := hrun
                  refine ⟨js1, acc, rfl, hacc, hn.symm, hjs2.symm, ?_,
                    hp.symm, hd.symm⟩
                  rw [hscheme]
                  exact hcall2.symm

/-- C2 (amended): a successful Salted resolution returns the sender's
pre-resolution nonce `n` as the output nonce and leaves the sender's journal
nonce at `(n + 1) % 2 ^ 64` — equal to `n + 1` for every `n` below the `u64`
maximum; at `n = 2 ^ 64 - 1` the `u64` increment wraps the journal nonce to
0 (see the counterexample). -/
theorem c2_create2_nonce_increment
    (bs : Addr) (bytecode : Bytes) (js : JournaledState) (db : Backend)
    (call : CreateInputs) (salt : Nat) (js2 : JournaledState)
    (call2 : CreateInputs) (p : Bytes) (d : Option NameOrAddress) (n : Nat)
    (acc : Account)
    (hscheme : call.scheme = .Create2 salt)
    (hacc : stLookup js.state bs = some acc)
    (hrun : process_create bs bytecode js db call =
      some (js2, call2, .ok (p, d, n))) :
    n = acc.info.nonce ∧
    stLookup js2.state bs =
      some { acc with info :=
        { acc.info with nonce := (acc.info.nonce + 1) % 2 ^ 64 } } := by
  obtain ⟨js1, acc', hload, hacc', hn, hjs2, -, -, -⟩ :=
    process_create_create2_ok_inv bs bytecode js db call salt js2 call2 p d n
      hscheme hrun
  have hpres : stLookup js1.state bs = some acc :=
    JournaledState.load_account_preserve js js1 db
      DEFAULT_CREATE2_DEPLOYER bs acc hacc hload
  rw [hpres] at hacc'
  injection hacc' with hacc''
  subst hacc''
  refine ⟨hn, ?_⟩
  rw [hjs2]
  exact stLookup_stUpdate_self _ _ _

/-- Witness for C2 (amended): the concrete journal `exJsGood` (sender nonce
7) run through a Salted resolution with salt 3 leaves the journal nonce at
`(7 + 1) % 2 ^ 64 = 8`. -/
theorem c2_create2_nonce_increment_witness :
    7 = exSender.info.nonce ∧
    stLookup exJsGood2.state 5 =
      some { exSender with
        info :=
          { exSender.info with
            nonce := (exSender.info.nonce + 1) % 2 ^ 64 } } :=
  c2_create2_nonce_increment 5 [170] exJsGood exDb
    { caller := 5, scheme := .Create2 3 } 3 exJsGood2
    { caller := DEFAULT_CREATE2_DEPLOYER, scheme := .Create2 3 }
    (toBEBytes 32 3 ++ [170]) (some (.Address DEFAULT_CREATE2_DEPLOYER)) 7
    exSender rfl rfl rfl

/-- Counterexample to C2 as stated: a sender whose nonce sits at the `u64`
maximum resolves successfully, returning output nonce `2 ^ 64 - 1`, but the
journal nonce wraps to 0 rather than becoming `n + 1`. -/
theorem c2_counterexample :
    ∃ js2 call2 p d,
      process_create 6 [170] exJsMax exDb
          { caller := 6, scheme := .Create2 3 } =
        some (js2, call2, .ok (p, d, 2 ^ 64 - 1)) ∧
      stLookup js2.state 6 =
        some { exSenderMax with
          info := { exSenderMax.info with nonce := 0 } } ∧
      (0 : Nat) ≠ (2 ^ 64 - 1) + 1 :=
  ⟨_, _, _, _, rfl, rfl, by decide⟩

/-- C3: the payload of a successful Salted resolution is the fixed-width
32-byte big-endian encoding of the salt followed by the original init code;
the encoding is 32 bytes long and decodes back to the salt for every salt
below `2 ^ 256`. -/
theorem c3_create2_payload
    (bs : Addr) (bytecode : Bytes) (js : JournaledState) (db : Backend)
    (call : CreateInputs) (salt : Nat) (js2 : JournaledState)
    (call2 : CreateInputs) (p : Bytes) (d : Option NameOrAddress) (n : Nat)
    (hsalt : salt < 2 ^ 256)
    (hscheme : call.scheme = .Create2 salt)
    (hrun : process_create bs bytecode js db call =
      some (js2, call2, .ok (p, d, n))) :
    p = toBEBytes 32 salt ++ bytecode ∧
    (toBEBytes 32 salt).length = 32 ∧
    fromBEBytes (toBEBytes 32 salt) = salt := by
  obtain ⟨js1, acc, -, -, -, -, -, hp, -⟩ :=
    process_create_create2_ok_inv bs bytecode js db call salt js2 call2 p d n
      hscheme hrun
  refine ⟨hp, toBEBytes_length _ _, fromBEBytes_toBEBytes _ _ ?_⟩
  have h256 : (256 : Nat) ^ 32 = 2 ^ 256 := by norm_num
  rw [h256]
  exact hsalt

/-- Witness for C3: the salt-3 run on the concrete journal `exJsGood`. -/
theorem c3_create2_payload_witness :
    toBEBytes 32 3 ++ [170] = toBEBytes 32 3 ++ [170] ∧
    (toBEBytes 32 3).length = 32 ∧
    fromBEBytes (toBEBytes 32 3) = 3 :=
  c3_create2_payload 5 [170] exJsGood exDb
    { caller := 5, scheme := .Create2 3 } 3 exJsGood2
    { caller := DEFAULT_CREATE2_DEPLOYER, scheme := .Create2 3 }
    (toBEBytes 32 3 ++ [170]) (some (.Address DEFAULT_CREATE2_DEPLOYER)) 7
    (by norm_num) rfl rfl

/-- C4: a Direct resolution rewrites the request's caller to the broadcast
sender and returns the unchanged init code, no destination override and the
sender's current nonce, with the journal (hence the sender's nonce)
unchanged. -/
theorem c4_direct_creation
    (bs : Addr) (bytecode : Bytes) (js : JournaledState) (db : Backend)
    (call : CreateInputs) (acc : Account)
    (hscheme : call.scheme = .Create)
    (hacc : stLookup js.state bs = some acc) :
    process_create bs bytecode js db call =
      some (js, { call with caller := bs },
        .ok (bytecode, none, acc.info.nonce)) := by
  unfold process_create
  simp [hscheme, hacc]

/-- Witness for C4: a Direct resolution on the concrete journal `exJsGood`
(sender nonce 7) leaves the journal untouched. -/
theorem c4_direct_creation_witness :
    process_create 5 [170] exJsGood exDb { caller := 9, scheme := .Create } =
      some (exJsGood, { caller := 5, scheme := .Create },
        .ok ([170], none, 7)) :=
  c4_direct_creation 5 [170] exJsGood exDb
    { caller := 9, scheme := .Create } exSender rfl rfl

/-- C5: a successful Salted resolution rewrites the request's caller to the
deployer proxy address and returns that same address as the destination
override. -/
theorem c5_create2_caller_and_destination
    (bs : Addr) (bytecode : Bytes) (js : JournaledState) (db : Backend)
    (call : CreateInputs) (salt : Nat) (js2 : JournaledState)
    (call2 : CreateInputs) (p : Bytes) (d : Option NameOrAddress) (n : Nat)
    (hscheme : call.scheme = .Create2 salt)
    (hrun : process_create bs bytecode js db call =
      some (js2, call2, .ok (p, d, n))) :
    call2.caller = DEFAULT_CREATE2_DEPLOYER ∧
    d = some (NameOrAddress.Address DEFAULT_CREATE2_DEPLOYER) := by
  obtain ⟨js1, acc, -, -, -, -, hcall2, -, hd⟩ :=
    process_create_create2_ok_inv bs bytecode js db call salt js2 call2 p d n
      hscheme hrun
  exact ⟨by rw [hcall2], hd⟩

/-- Witness for C5: the salt-3 run on the concrete journal `exJsGood`. -/
theorem c5_create2_caller_and_destination_witness :
    ({ caller := DEFAULT_CREATE2_DEPLOYER,
        scheme := .Create2 3 } : CreateInputs).caller =
      DEFAULT_CREATE2_DEPLOYER ∧
    (some (NameOrAddress.Address DEFAULT_CREATE2_DEPLOYER) :
        Option NameOrAddress) =
      some (NameOrAddress.Address DEFAULT_CREATE2_DEPLOYER) :=
  c5_create2_caller_and_destination 5 [170] exJsGood exDb
    { caller := 5, scheme := .Create2 3 } 3 exJsGood2
    { caller := DEFAULT_CREATE2_DEPLOYER, scheme := .Create2 3 }
    (toBEBytes 32 3 ++ [170]) (some (.Address DEFAULT_CREATE2_DEPLOYER)) 7
    rfl rfl

/-- C7 (amended): `process_create` loads only the deployer proxy, never the
sender.  A Direct resolution with the sender absent from the journal is a
fatal panic; a Salted resolution with an absent sender distinct from the
deployer proxy address never succeeds — it either panics or returns an
error.  (When the sender *is* the proxy address, the sanity-check load
brings it into the journal, so resolution can succeed; see the
counterexample.) -/
theorem c7_unloaded_sender_never_succeeds
    (bs : Addr) (bytecode : Bytes) (js : JournaledState) (db : Backend)
    (call : CreateInputs) (salt : Nat) :
    (call.scheme = .Create → stLookup js.state bs = none →
      process_create bs bytecode js db call = none) ∧
    (call.scheme = .Create2 salt → bs ≠ DEFAULT_CREATE2_DEPLOYER →
      stLookup js.state bs = none →
      (process_create bs bytecode js db call = none ∨
        ∃ js' c' e, process_create bs bytecode js db call =
          some (js', c', .error e))) := by
  constructor
  · intro hs hn
    unfold process_create
    simp [hs, hn]
  · intro hs hne hn
    cases hload : js.load_account db DEFAULT_CREATE2_DEPLOYER with
    | error e =>
        right
        exact ⟨js, call, e, by unfold process_create; simp [hs, hload]⟩
    | ok js1 =>
        have hbs1 : stLookup js1.state bs = none := by
          rw [JournaledState.load_account_lookup_ne js js1 db
            DEFAULT_CREATE2_DEPLOYER bs hne hload]
          exact hn
        cases hdep : stLookup js1.state DEFAULT_CREATE2_DEPLOYER with
        | none =>
            left
            unfold process_create
            simp [hs, hload, hdep]
        | some dep =>
            cases hchk : create2_deployer_check dep db with
            | error e =>
                right
                exact ⟨js1, call, e,
                  by unfold process_create; simp [hs, hload, hdep, hchk]⟩
            | ok u =>
                left
                unfold process_create
                simp [hs, hload, hdep, hchk, hbs1]

/-- Witness for C7 (amended): a Direct resolution from an empty journal is a
panic. -/
theorem c7_unloaded_sender_never_succeeds_witness :
    process_create 5 [1] ⟨[]⟩ exDb { caller := 5, scheme := .Create } =
      none :=
  (c7_unloaded_sender_never_succeeds 5 [1] ⟨[]⟩ exDb
    { caller := 5, scheme := .Create } 0).1 rfl rfl

/-- Counterexample to C7 as stated: when the broadcast sender is the deployer
proxy address itself and absent from the journal, the Salted branch's
sanity-check load brings the sender into the journal and resolution
*succeeds* — no panic and no error. -/
theorem c7_counterexample :
    stLookup (⟨[]⟩ : JournaledState).state DEFAULT_CREATE2_DEPLOYER = none ∧
    ∃ js' c' p d n,
      process_create DEFAULT_CREATE2_DEPLOYER [170] ⟨[]⟩ exDbWithDep
        { caller := 1, scheme := .Create2 0 } =
        some (js', c', .ok (p, d, n)) :=
  ⟨rfl, _, _, _, _, _, rfl⟩

/-- C8: `with_journaled_account` propagates a failed load with the journal
untouched and the mutator unapplied; on a successful load the account is in
the journal, is marked touched, and the mutator's result is returned wrapped
in `Ok` — the panic branch is unreachable. -/
theorem c8_with_journaled_account {R : Type} (js : JournaledState)
    (db : Backend) (addr : Addr) (f : Account → Account × R) :
    (∃ e, js.load_account db addr = .error e ∧
      with_journaled_account js db addr f = some (js, .error e)) ∨
    (∃ js1 acc, js.load_account db addr = .ok js1 ∧
      stLookup (js1.touch addr).state addr = some acc ∧
      with_journaled_account js db addr f =
        some (⟨stUpdate (js1.touch addr).state addr (f acc).1⟩,
          .ok (f acc).2)) := by
  cases hload : js.load_account db addr with
  | error e =>
      left
      refine ⟨e, rfl, ?_⟩
      unfold with_journaled_account
      simp [hload]
  | ok js1 =>
      right
      obtain ⟨acc0, hacc0⟩ :=
        JournaledState.load_account_lookup_self js js1 db addr hload
      have htch := JournaledState.touch_lookup_self js1 addr acc0 hacc0
      refine ⟨js1, { acc0 with touched := true }, rfl, htch, ?_⟩
      unfold with_journaled_account
      simp [hload, htch]

/-- Characterisation of the deployer sanity check: provided the backend
`code_by_hash` lookup does not itself produce `MissingCreate2Deployer`, the
check fails with `MissingCreate2Deployer` exactly when the in-journal code
field is present and empty, or absent with the backend reporting empty
code. -/
theorem create2_deployer_check_missing_iff (dep : Account) (db : Backend)
    (hnomiss : db.code_by_hash dep.info.codeHash ≠
      .error DatabaseError.MissingCreate2Deployer) :
    create2_deployer_check dep db =
        .error DatabaseError.MissingCreate2Deployer ↔
      (dep.info.code = some [] ∨
        (dep.info.code = none ∧
          db.code_by_hash dep.info.codeHash = .ok [])) := by
  unfold create2_deployer_check
  cases hc : dep.info.code with
  | some code =>
      cases code with
      | nil => simp
      | cons b t => simp
  | none =>
      cases hcb : db.code_by_hash dep.info.codeHash with
      | error e =>
          rw [hcb] at hnomiss
          simp_all
      | ok code =>
          cases code with
          | nil => simp [hcb]
          | cons b t => simp [hcb]

/-- C1 (amended): given that the deployer proxy loads as `dep` and that the
backend `code_by_hash` lookup does not itself yield
`MissingCreate2Deployer`, a Salted resolution fails with
`MissingCreate2Deployer` exactly when the in-journal code field of the proxy
is present and empty — regardless of what the backend reports — or absent
with the backend reporting empty code. -/
theorem c1_missing_deployer_iff
    (bs : Addr) (bytecode : Bytes) (js : JournaledState) (db : Backend)
    (call : CreateInputs) (salt : Nat) (js1 : JournaledState) (dep : Account)
    (hscheme : call.scheme = .Create2 salt)
    (hload : js.load_account db DEFAULT_CREATE2_DEPLOYER = .ok js1)
    (hdep : stLookup js1.state DEFAULT_CREATE2_DEPLOYER = some dep)
    (hnomiss : db.code_by_hash dep.info.codeHash ≠
      .error DatabaseError.MissingCreate2Deployer) :
    (∃ js' c', process_create bs bytecode js db call =
        some (js', c', .error DatabaseError.MissingCreate2Deployer)) ↔
      (dep.info.code = some [] ∨
        (dep.info.code = none ∧
          db.code_by_hash dep.info.codeHash = .ok [])) := by
  rw [← create2_deployer_check_missing_iff dep db hnomiss]
  unfold process_create
  simp only [hscheme, hload, hdep]
  cases hchk : create2_deployer_check dep db with
  | error e => simp
  | ok u =>
      cases hacc : stLookup js1.state bs with
      | none => simp [hacc]
      | some acc => simp [hacc]

/-- Witness for C1 (amended): the empty-in-journal-code deployer makes the
concrete Salted resolution fail with `MissingCreate2Deployer`. -/
theorem c1_missing_deployer_iff_witness :
    ∃ js' c', process_create 5 [170] exJsEmptyDep exDb
        { caller := 5, scheme := .Create2 9 } =
      some (js', c', .error DatabaseError.MissingCreate2Deployer) :=
  (c1_missing_deployer_iff 5 [170] exJsEmptyDep exDb
      { caller := 5, scheme := .Create2 9 } 9 exJsEmptyDep exEmptyCodeDep
      rfl rfl rfl (by simp [exDb])).mpr (Or.inl rfl)

/-- Counterexample to C1 as stated: the deployer proxy's in-journal code
field is present but empty while the backend reports the non-empty code
`[1]` for its hash; the claim says resolution proceeds past the check, yet
the code fails with `MissingCreate2Deployer` without consulting the
backend. -/
theorem c1_counterexample :
    exDb.code_by_hash exEmptyCodeDep.info.codeHash = .ok [1] ∧
    ([1] : Bytes) ≠ [] ∧
    process_create 5 [170] exJsEmptyDep exDb
        { caller := 5, scheme := .Create2 9 } =
      some (exJsEmptyDep, { caller := 5, scheme := .Create2 9 },
        .error DatabaseError.MissingCreate2Deployer) :=
  ⟨rfl, by simp, rfl⟩

end FoundryUtil
